import Mathlib

/-!
Verification of the streamdeck USB HID driver.

Bytes are modelled as natural numbers below 256; a Go byte(x) conversion is
modelled as x % 256.  Go slices of bytes become List Nat.  Fallible
operations return Except, and calls into the kernel (ioctl transfers) are
modelled by a boolean input saying whether the underlying transfer succeeds.
-/

namespace Streamdeck

/-!
Image packet framing, from device-original-mk2 sources.

The Go functions imageTextureOldShared and imageTextureGen2 share one loop
shape: while bytes remain, build a header, copy min(remaining, payloadSize)
buffer bytes starting at page * payloadSize, zero-pad the packet to the full
package size, emit it, and advance.  framePackets is that loop, made pure: it
returns the list of packets handed to the write callback, parameterised by
the payload size P (package size minus header size) and the per-iteration
header.  The 0 < P guard makes the function total in Lean; the Go loop never
terminates when the payload size is not positive, and every caller passes a
positive payload size.
-/

def framePackets (P : Nat) (hdr : Nat → Nat → Nat → List Nat) (buffer : List Nat)
    (page remaining : Nat) : List (List Nat) :=
  if h : 0 < remaining ∧ 0 < P then
    (hdr page (min remaining P) remaining
        ++ (buffer.drop (page * P)).take (min remaining P)
        ++ List.replicate (P - min remaining P) 0)
      :: framePackets P hdr buffer (page + 1) (remaining - min remaining P)
  else []
termination_by remaining
decreasing_by omega

/-- Header written by imageTextureGen2 each iteration: opcode 0x02 0x07, the
button index, the last-page flag (set when the chunk is all that remains),
the chunk length as a little-endian u16, and the page as a little-endian u16. -/
def gen2Header (button page chunk remaining : Nat) : List Nat :=
  [0x02, 0x07, button % 256,
   if chunk = remaining then 0x01 else 0x00,
   chunk % 256, chunk / 256 % 256,
   page % 256, page / 256 % 256]

/-- imageTextureGen2: package size 1024, header size 8. -/
def imageTextureGen2 (button : Nat) (buffer : List Nat) : List (List Nat) :=
  framePackets (1024 - 8) (gen2Header button) buffer 0 buffer.length

/-- Header written by imageTextureOldShared each iteration: opcode 0x02 0x01,
the page (as a byte), the last-page flag at offset 4, button + 1 at offset 5,
and ten zero bytes of padding (header size 16). -/
def oldSharedHeader (button page chunk remaining : Nat) : List Nat :=
  [0x02, 0x01, page % 256, 0x00,
   if chunk = remaining then 0x01 else 0x00,
   (button + 1) % 256,
   0, 0, 0, 0, 0, 0, 0, 0, 0, 0]

/-- imageTextureOldShared: gen1 and mini framing, header size 16, package
size passed by the caller. -/
def imageTextureOldShared (button : Nat) (buffer : List Nat) (packageSize : Nat) :
    List (List Nat) :=
  framePackets (packageSize - 16) (oldSharedHeader button) buffer 0 buffer.length

def imageTextureMini (button : Nat) (buffer : List Nat) : List (List Nat) :=
  imageTextureOldShared button buffer 1024

def imageTextureGen1 (button : Nat) (buffer : List Nat) : List (List Nat) :=
  imageTextureOldShared button buffer 8191

/-!
The older Device.SetButton framing loop (device.go) together with the MK.2
provider's GetImageHeader.  The Go code computes min with an if comparison;
min is used here with the same argument order as the comparison.
-/

/-- OriginalMk2.ImagePayloadSize: the full packet size used by the old loop. -/
def imagePayloadSizeMk2 : Nat := 1024

/-- OriginalMk2.GetImageHeader.  Note that thisLength is computed against the
full 1024-byte package size, not the 1016 bytes of payload the loop actually
sends per packet. -/
def getImageHeaderMk2 (bytesRemaining btnIndex pageNumber : Nat) : List Nat :=
  let thisLength := min imagePayloadSizeMk2 bytesRemaining
  [0x02, 0x07, btnIndex % 256,
   if thisLength = bytesRemaining then 0x01 else 0x00,
   thisLength % 256, thisLength / 256 % 256,
   pageNumber % 256, pageNumber / 256 % 256]

/-- The loop inside the older Device.SetButton, specialised to the MK.2
provider: per packet, an 8-byte header from GetImageHeader, then
min(remaining, 1024 - 8) buffer bytes, then zero padding up to 1024 bytes. -/
def setButtonLoop (btnIndex : Nat) (rawImage : List Nat)
    (pageNumber bytesRemaining : Nat) : List (List Nat) :=
  if h : 0 < bytesRemaining then
    let header := getImageHeaderMk2 bytesRemaining btnIndex pageNumber
    let imageReportPayloadLength := imagePayloadSizeMk2 - header.length
    let thisLength := min imageReportPayloadLength bytesRemaining
    let payload := header ++ (rawImage.drop (pageNumber * imageReportPayloadLength)).take thisLength
    (payload ++ List.replicate (imagePayloadSizeMk2 - payload.length) 0)
      :: setButtonLoop btnIndex rawImage (pageNumber + 1) (bytesRemaining - thisLength)
  else []
termination_by bytesRemaining
decreasing_by
  simp only [getImageHeaderMk2, imagePayloadSizeMk2, List.length_cons, List.length_nil]
  omega

/-- Packets written by the older Device.SetButton (MK.2 header) for a valid
button index. -/
def setButtonPackets (btnIndex : Nat) (rawImage : List Nat) : List (List Nat) :=
  setButtonLoop btnIndex rawImage 0 rawImage.length

theorem framePackets_nil (P : Nat) (hdr : Nat → Nat → Nat → List Nat)
    (buffer : List Nat) (page : Nat) :
    framePackets P hdr buffer page 0 = [] := by
  rw [framePackets]
  simp

/-- The default value of getLastD is irrelevant on a nonempty list. -/
theorem getLastD_of_ne_nil {α : Type} (l : List α) (hne : l ≠ []) (d e : α) :
    l.getLastD d = l.getLastD e := by
  cases l with
  | nil => exact absurd rfl hne
  | cons a t => rw [List.getLastD_cons, List.getLastD_cons]

/-- Concatenating the payload areas of the emitted packets and truncating to
the number of remaining bytes restores exactly the unsent part of the
buffer. -/
theorem framePackets_payload (P H : Nat) (hdr : Nat → Nat → Nat → List Nat)
    (hH : ∀ page chunk remaining, (hdr page chunk remaining).length = H)
    (buffer : List Nat) :
    ∀ page remaining, 0 < P → buffer.length = page * P + remaining →
      (((framePackets P hdr buffer page remaining).map (fun p => p.drop H)).flatten).take
          remaining
        = buffer.drop (page * P) := by
  intro page remaining
  induction page, remaining using framePackets.induct P hdr buffer with
  | case1 page remaining h ih =>
    intro hP hlen
    have hsucc : (page + 1) * P = page * P + P := by ring
    have hD : (buffer.drop (page * P)).length = remaining := by
      simp only [List.length_drop]
      omega
    have hdl : ∀ t : List Nat,
        (hdr page (min remaining P) remaining ++ t).drop H = t := by
      intro t
      rw [← hH page (min remaining P) remaining, List.drop_left]
    rw [framePackets, dif_pos h]
    simp only [List.map_cons, List.flatten_cons]
    rw [List.append_assoc, hdl]
    rcases le_or_lt remaining P with hle | hlt
    · have hmin : min remaining P = remaining := min_eq_left hle
      rw [hmin] at ih ⊢
      rw [Nat.sub_self, framePackets_nil]
      have htake : (buffer.drop (page * P)).take remaining = buffer.drop (page * P) :=
        List.take_of_length_le (by omega)
      rw [htake]
      simp only [List.map_nil, List.flatten_nil, List.append_nil]
      rw [← hD, List.take_left]
    · have hmin : min remaining P = P := min_eq_right (le_of_lt hlt)
      rw [hmin] at ih ⊢
      have hlen2 : ((buffer.drop (page * P)).take P).length = P := by
        simp only [List.length_take, List.length_drop]
        omega
      rw [Nat.sub_self, List.replicate_zero, List.append_nil,
        List.take_append_eq_append_take, hlen2,
        List.take_of_length_le (by rw [hlen2]; omega)]
      rw [ih hP (by omega)]
      have hdrop : buffer.drop ((page + 1) * P) = (buffer.drop (page * P)).drop P := by
        rw [List.drop_drop, hsucc]
      rw [hdrop, List.take_append_drop]
  | case2 page remaining h =>
    intro hP hlen
    have hrem : remaining = 0 := by omega
    subst hrem
    rw [framePackets_nil]
    simp only [List.map_nil, List.flatten_nil, List.take_nil]
    exact (List.drop_eq_nil_of_le (by omega)).symm

/-- Among the emitted packets, the byte at the flag offset equals 1 on
exactly one packet, namely the last one emitted, whenever at least one byte
is to be sent. -/
theorem framePackets_lastFlag (P H fi : Nat) (hdr : Nat → Nat → Nat → List Nat)
    (hH : ∀ page chunk remaining, (hdr page chunk remaining).length = H)
    (hfi : fi < H)
    (hflag : ∀ page chunk remaining, (hdr page chunk remaining).getD fi 0
        = if chunk = remaining then 1 else 0)
    (buffer : List Nat) :
    ∀ page remaining, 0 < P → 0 < remaining →
      framePackets P hdr buffer page remaining ≠ [] ∧
      ((framePackets P hdr buffer page remaining).filter
          (fun p => p.getD fi 0 == 1)).length = 1 ∧
      ((framePackets P hdr buffer page remaining).getLastD []).getD fi 0 = 1 := by
  intro page remaining
  induction page, remaining using framePackets.induct P hdr buffer with
  | case1 page remaining h ih =>
    intro hP hrem
    rw [framePackets, dif_pos h]
    have hpkt : ∀ t r : List Nat,
        (((hdr page (min remaining P) remaining ++ t) ++ r).getD fi 0)
          = if min remaining P = remaining then 1 else 0 := by
      intro t r
      rw [List.append_assoc, List.getD_append _ _ _ _ (by rw [hH]; exact hfi)]
      exact hflag page (min remaining P) remaining
    rcases le_or_lt remaining P with hle | hlt
    · have hmin : min remaining P = remaining := min_eq_left hle
      rw [hmin] at hpkt ⊢
      rw [Nat.sub_self, framePackets_nil]
      have hflag1 : ((hdr page remaining remaining
            ++ (buffer.drop (page * P)).take remaining
            ++ List.replicate (P - remaining) 0).getD fi 0) = 1 := by
        rw [hpkt]
        simp
      refine ⟨by simp, ?_, ?_⟩
      · simp only [List.filter_cons, hflag1]
        simp
      · rw [List.getLastD_cons, List.getLastD_nil]
        exact hflag1
    · have hmin : min remaining P = P := min_eq_right (le_of_lt hlt)
      rw [hmin] at hpkt ih ⊢
      have hflag0 : ((hdr page P remaining
            ++ (buffer.drop (page * P)).take P
            ++ List.replicate (P - P) 0).getD fi 0) = 0 := by
        rw [hpkt]
        simp
        omega
      obtain ⟨ihne, ihcount, ihlast⟩ := ih hP (by omega)
      refine ⟨by simp, ?_, ?_⟩
      · simp only [List.filter_cons, hflag0]
        simpa using ihcount
      · rw [List.getLastD_cons]
        rw [getLastD_of_ne_nil _ ihne]
        exact ihlast
  | case2 page remaining h =>
    intro hP hrem
    exact absurd ⟨hrem, hP⟩ h

/-- C1 counterexample: on a zero-length buffer every framing loop emits no
packets at all, so no emitted packet carries the last-page flag, contradicting
the claim that exactly one packet has the flag set for every length L ≥ 0. -/
theorem image_framing_empty_buffer :
    imageTextureGen2 0 [] = [] ∧
    ((imageTextureGen2 0 []).filter (fun p => p.getD 3 0 == 1)).length = 0 ∧
    imageTextureMini 0 [] = [] ∧
    imageTextureGen1 0 [] = [] := by
  have hg2 : imageTextureGen2 0 [] = [] := by
    rw [imageTextureGen2, framePackets]
    simp
  have hm : imageTextureMini 0 [] = [] := by
    rw [imageTextureMini, imageTextureOldShared, framePackets]
    simp
  have hg1 : imageTextureGen1 0 [] = [] := by
    rw [imageTextureGen1, imageTextureOldShared, framePackets]
    simp
  exact ⟨hg2, by rw [hg2]; rfl, hm, hg1⟩

/-- C1 (amended): for every buffer of length L ≥ 1 and every generation's
framing function (gen2 with package size 1024 and header size 8; mini with
package size 1024 and header size 16; gen1 with package size 8191 and header
size 16), the concatenation of the payload areas of the emitted packets,
truncated to L, reproduces the buffer exactly, exactly one emitted packet has
its last-page flag set, and that packet is the final packet emitted.  For
L = 0 no packet is emitted at all. -/
theorem image_framing_total (button : Nat) (buffer : List Nat)
    (hne : 0 < buffer.length) :
    ((((imageTextureGen2 button buffer).map (fun p => p.drop 8)).flatten).take
          buffer.length = buffer
      ∧ ((imageTextureGen2 button buffer).filter (fun p => p.getD 3 0 == 1)).length = 1
      ∧ ((imageTextureGen2 button buffer).getLastD []).getD 3 0 = 1)
    ∧ ((((imageTextureMini button buffer).map (fun p => p.drop 16)).flatten).take
          buffer.length = buffer
      ∧ ((imageTextureMini button buffer).filter (fun p => p.getD 4 0 == 1)).length = 1
      ∧ ((imageTextureMini button buffer).getLastD []).getD 4 0 = 1)
    ∧ ((((imageTextureGen1 button buffer).map (fun p => p.drop 16)).flatten).take
          buffer.length = buffer
      ∧ ((imageTextureGen1 button buffer).filter (fun p => p.getD 4 0 == 1)).length = 1
      ∧ ((imageTextureGen1 button buffer).getLastD []).getD 4 0 = 1) := by
  have hg2p := framePackets_payload (1024 - 8) 8 (gen2Header button)
    (fun _ _ _ => rfl) buffer 0 buffer.length (by norm_num) (by simp)
  have hg2f := framePackets_lastFlag (1024 - 8) 8 3 (gen2Header button)
    (fun _ _ _ => rfl) (by norm_num) (fun _ _ _ => rfl) buffer 0 buffer.length
    (by norm_num) hne
  have hmp := framePackets_payload (1024 - 16) 16 (oldSharedHeader button)
    (fun _ _ _ => rfl) buffer 0 buffer.length (by norm_num) (by simp)
  have hmf := framePackets_lastFlag (1024 - 16) 16 4 (oldSharedHeader button)
    (fun _ _ _ => rfl) (by norm_num) (fun _ _ _ => rfl) buffer 0 buffer.length
    (by norm_num) hne
  have hg1p := framePackets_payload (8191 - 16) 16 (oldSharedHeader button)
    (fun _ _ _ => rfl) buffer 0 buffer.length (by norm_num) (by simp)
  have hg1f := framePackets_lastFlag (8191 - 16) 16 4 (oldSharedHeader button)
    (fun _ _ _ => rfl) (by norm_num) (fun _ _ _ => rfl) buffer 0 buffer.length
    (by norm_num) hne
  simp only [zero_mul, List.drop_zero] at hg2p hmp hg1p
  rw [imageTextureGen2, imageTextureMini, imageTextureGen1, imageTextureOldShared,
    imageTextureOldShared]
  exact ⟨⟨hg2p, hg2f.2.1, hg2f.2.2⟩, ⟨hmp, hmf.2.1, hmf.2.2⟩,
    ⟨hg1p, hg1f.2.1, hg1f.2.2⟩⟩

theorem image_framing_total_witness :
    0 < ([37] : List Nat).length ∧
    (((((imageTextureGen2 5 [37]).map (fun p => p.drop 8)).flatten).take
          ([37] : List Nat).length = [37]
      ∧ ((imageTextureGen2 5 [37]).filter (fun p => p.getD 3 0 == 1)).length = 1
      ∧ ((imageTextureGen2 5 [37]).getLastD []).getD 3 0 = 1)
    ∧ ((((imageTextureMini 5 [37]).map (fun p => p.drop 16)).flatten).take
          ([37] : List Nat).length = [37]
      ∧ ((imageTextureMini 5 [37]).filter (fun p => p.getD 4 0 == 1)).length = 1
      ∧ ((imageTextureMini 5 [37]).getLastD []).getD 4 0 = 1)
    ∧ ((((imageTextureGen1 5 [37]).map (fun p => p.drop 16)).flatten).take
          ([37] : List Nat).length = [37]
      ∧ ((imageTextureGen1 5 [37]).filter (fun p => p.getD 4 0 == 1)).length = 1
      ∧ ((imageTextureGen1 5 [37]).getLastD []).getD 4 0 = 1)) :=
  ⟨by decide, image_framing_total 5 [37] (by decide)⟩

/-- C9 (amended): the packet sequence of the older SetButton loop with the
MK.2 header agrees with imageTextureGen2 exactly on buffers that fit in a
single packet (length at most 1016 payload bytes); the refinement claimed for
every buffer fails beyond that. -/
theorem setButton_refines_gen2 (btnIndex : Nat) (rawImage : List Nat)
    (h : rawImage.length ≤ 1016) :
    setButtonPackets btnIndex rawImage = imageTextureGen2 btnIndex rawImage := by
  rw [setButtonPackets, imageTextureGen2]
  rcases Nat.eq_zero_or_pos rawImage.length with h0 | hpos
  · rw [h0, framePackets_nil, setButtonLoop]
    simp
  · rw [setButtonLoop, dif_pos hpos, framePackets, dif_pos ⟨hpos, by norm_num⟩]
    have h1 : min 1024 rawImage.length = rawImage.length := by omega
    have h2 : min (1024 - 8) rawImage.length = rawImage.length := by omega
    have h3 : min rawImage.length (1024 - 8) = rawImage.length := by omega
    have h4 : setButtonLoop btnIndex rawImage 1 0 = [] := by
      rw [setButtonLoop]
      simp
    simp only [getImageHeaderMk2, gen2Header, imagePayloadSizeMk2, h1, h2, h3,
      List.length_cons, List.length_nil, List.length_append, List.length_take,
      List.length_drop, Nat.zero_mul, List.drop_zero, List.take_length,
      Nat.sub_self, h4, framePackets_nil]
    rw [show 1024 - (0 + 1 + 1 + 1 + 1 + 1 + 1 + 1 + 1 + rawImage.length)
        = 1024 - 8 - rawImage.length from by omega]

theorem setButton_refines_gen2_witness :
    ([10, 20] : List Nat).length ≤ 1016 ∧
    setButtonPackets 3 [10, 20] = imageTextureGen2 3 [10, 20] :=
  ⟨by decide, setButton_refines_gen2 3 [10, 20] (by decide)⟩

/-- C9 counterexample: on a 1017-byte buffer the first packet written by the
older SetButton loop differs from the first packet of imageTextureGen2 at
byte 4 (the low byte of the chunk-length field): GetImageHeader computes the
chunk length against the full 1024-byte package size, so it reports 1017
(low byte 249) and sets the last-page flag, while imageTextureGen2 sends only
1016 payload bytes (low byte 248) with the flag clear. -/
theorem setButton_gen2_first_packet_differs :
    ((setButtonPackets 0 (List.replicate 1017 0)).headD []).getD 4 0 = 249 ∧
    ((imageTextureGen2 0 (List.replicate 1017 0)).headD []).getD 4 0 = 248 ∧
    setButtonPackets 0 (List.replicate 1017 0)
      ≠ imageTextureGen2 0 (List.replicate 1017 0) := by
  have hlen : (List.replicate 1017 (0 : Nat)).length = 1017 :=
    List.length_replicate 1017 0
  have hhdr : getImageHeaderMk2 1017 0 0 = [2, 7, 0, 1, 249, 3, 0, 0] := by decide
  have hghdr : gen2Header 0 0 (min 1017 (1024 - 8)) 1017 = [2, 7, 0, 0, 248, 3, 0, 0] := by
    decide
  have ha : ((setButtonPackets 0 (List.replicate 1017 0)).headD []).getD 4 0 = 249 := by
    rw [setButtonPackets, hlen, setButtonLoop, dif_pos (by norm_num : (0 : Nat) < 1017)]
    simp only [List.headD_cons]
    rw [List.append_assoc, List.getD_append _ _ _ _ (by rw [hhdr]; norm_num), hhdr]
    rfl
  have hb : ((imageTextureGen2 0 (List.replicate 1017 0)).headD []).getD 4 0 = 248 := by
    rw [imageTextureGen2, hlen, framePackets,
      dif_pos (⟨by norm_num, by norm_num⟩ : 0 < 1017 ∧ 0 < 1024 - 8)]
    simp only [List.headD_cons]
    rw [List.append_assoc, List.getD_append _ _ _ _ (by rw [hghdr]; norm_num), hghdr]
    rfl
  refine ⟨ha, hb, fun heq => ?_⟩
  rw [heq, hb] at ha
  exact absurd ha (by norm_num)

/-!
Device registry: the deviceTypes table with the per-generation
brightness-packet, reset-packet and image-texture functions, and the
feature-report transport that consumes the packets.  Image flags and the
image codec are external collaborators and are not modelled beyond their
tags.
-/

inductive ImageFormat
  | BMP
  | JPEG
deriving DecidableEq

/-- brightnessPacketGen1: a 17-byte feature report, opcode 0x05 0x55 0xaa
0xd1 0x01, brightness at offset 5, rest zero. -/
def brightnessPacketGen1 (brightness : Nat) : List Nat :=
  [0x05, 0x55, 0xaa, 0xd1, 0x01, brightness % 256] ++ List.replicate 11 0

/-- brightnessPacketGen2: a 32-byte feature report, opcode 0x03 0x08,
brightness at offset 2, rest zero. -/
def brightnessPacketGen2 (brightness : Nat) : List Nat :=
  [0x03, 0x08, brightness % 256] ++ List.replicate 29 0

/-- resetPacketGen1: a 16-byte feature report, opcode 0x0b 0x63. -/
def resetPacketGen1 : List Nat :=
  [0x0b, 0x63] ++ List.replicate 14 0

/-- resetPacketGen2: a 32-byte feature report, opcode 0x03 0x02. -/
def resetPacketGen2 : List Nat :=
  [0x03, 0x02] ++ List.replicate 30 0

/-- DeviceType: one row of the hardware profile registry. -/
structure DeviceType where
  Name : String
  ProductID : Nat
  Rows : Nat
  Cols : Nat
  ImageFormat : ImageFormat
  ImageSize : Nat
  ButtonOffset : Nat
  BrightnessPacketFunc : Nat → List Nat
  ResetPacketFunc : List Nat
  ImageTextureFunc : Nat → List Nat → List (List Nat)

/-- DeviceType.ButtonCount: rows times columns. -/
def DeviceType.ButtonCount (t : DeviceType) : Nat :=
  t.Rows * t.Cols

def elgatoVendorID : Nat := 0x0fd9

def streamDeckType : DeviceType :=
  { Name := "Stream Deck", ProductID := 0x60, Rows := 3, Cols := 5,
    ImageFormat := .BMP, ImageSize := 72, ButtonOffset := 1,
    BrightnessPacketFunc := brightnessPacketGen1,
    ResetPacketFunc := resetPacketGen1,
    ImageTextureFunc := imageTextureGen1 }

def streamDeckMk2Type : DeviceType :=
  { Name := "Stream Deck MK.2", ProductID := 0x6d, Rows := 3, Cols := 5,
    ImageFormat := .JPEG, ImageSize := 72, ButtonOffset := 4,
    BrightnessPacketFunc := brightnessPacketGen2,
    ResetPacketFunc := resetPacketGen2,
    ImageTextureFunc := imageTextureGen2 }

def streamDeckMiniType : DeviceType :=
  { Name := "Stream Deck Mini", ProductID := 0x63, Rows := 2, Cols := 3,
    ImageFormat := .BMP, ImageSize := 80, ButtonOffset := 1,
    BrightnessPacketFunc := brightnessPacketGen1,
    ResetPacketFunc := resetPacketGen1,
    ImageTextureFunc := imageTextureMini }

def streamDeckMiniV2Type : DeviceType :=
  { Name := "Stream Deck Mini", ProductID := 0x90, Rows := 2, Cols := 3,
    ImageFormat := .BMP, ImageSize := 80, ButtonOffset := 1,
    BrightnessPacketFunc := brightnessPacketGen1,
    ResetPacketFunc := resetPacketGen1,
    ImageTextureFunc := imageTextureMini }

def streamDeckXLType : DeviceType :=
  { Name := "Stream Deck XL", ProductID := 0x6c, Rows := 4, Cols := 8,
    ImageFormat := .JPEG, ImageSize := 96, ButtonOffset := 4,
    BrightnessPacketFunc := brightnessPacketGen2,
    ResetPacketFunc := resetPacketGen2,
    ImageTextureFunc := imageTextureGen2 }

def streamDeckXLV2Type : DeviceType :=
  { Name := "Stream Deck XL", ProductID := 0x8f, Rows := 4, Cols := 8,
    ImageFormat := .JPEG, ImageSize := 96, ButtonOffset := 4,
    BrightnessPacketFunc := brightnessPacketGen2,
    ResetPacketFunc := resetPacketGen2,
    ImageTextureFunc := imageTextureGen2 }

def streamDeckPlusType : DeviceType :=
  { Name := "Stream Deck Plus", ProductID := 0x84, Rows := 4, Cols := 2,
    ImageFormat := .JPEG, ImageSize := 120, ButtonOffset := 4,
    BrightnessPacketFunc := brightnessPacketGen2,
    ResetPacketFunc := resetPacketGen2,
    ImageTextureFunc := imageTextureGen2 }

/-- deviceTypes: the registry of known Stream Deck models. -/
def deviceTypes : List DeviceType :=
  [streamDeckType, streamDeckMk2Type, streamDeckMiniType, streamDeckMiniV2Type,
   streamDeckXLType, streamDeckXLV2Type, streamDeckPlusType]

/-- USB.SendFeatureReport computes the control-transfer value (3 shifted
left by 8) + v[0] with an unguarded read of the first packet byte; the read
is modelled with get?, where none stands for the index-out-of-range panic. -/
def sendFeatureReportValue (v : List Nat) : Option Nat :=
  (v.get? 0).map (fun b => 3 * 256 + b)

/-- C10: every device type in the registry builds a nonempty brightness
packet (for every brightness value) and a nonempty reset packet, so the
report-id read of the first packet byte in SendFeatureReport is always in
bounds and Reset / SetBrightness never panic on indexing. -/
theorem registry_packets_nonempty (dt : DeviceType) (hdt : dt ∈ deviceTypes)
    (brightness : Nat) :
    dt.BrightnessPacketFunc brightness ≠ [] ∧
    dt.ResetPacketFunc ≠ [] ∧
    (sendFeatureReportValue (dt.BrightnessPacketFunc brightness)).isSome = true ∧
    (sendFeatureReportValue dt.ResetPacketFunc).isSome = true := by
  simp only [deviceTypes, List.mem_cons, List.not_mem_nil, or_false] at hdt
  rcases hdt with rfl | rfl | rfl | rfl | rfl | rfl | rfl <;>
    simp [streamDeckType, streamDeckMk2Type, streamDeckMiniType, streamDeckMiniV2Type,
      streamDeckXLType, streamDeckXLV2Type, streamDeckPlusType,
      brightnessPacketGen1, brightnessPacketGen2, resetPacketGen1, resetPacketGen2,
      sendFeatureReportValue]

theorem registry_packets_nonempty_witness :
    streamDeckMk2Type ∈ deviceTypes ∧
    (streamDeckMk2Type.BrightnessPacketFunc 50 ≠ [] ∧
     streamDeckMk2Type.ResetPacketFunc ≠ [] ∧
     (sendFeatureReportValue (streamDeckMk2Type.BrightnessPacketFunc 50)).isSome = true ∧
     (sendFeatureReportValue streamDeckMk2Type.ResetPacketFunc).isSome = true) :=
  ⟨List.mem_cons_of_mem _ (List.mem_cons_self _ _),
   registry_packets_nonempty _ (List.mem_cons_of_mem _ (List.mem_cons_self _ _)) 50⟩

/-!
The SetButton index bounds check (Device.SetButton).  Go int is modelled as
Int; min and max are the helpers defined at the bottom of device.go.
-/

/-- Go helper min over int. -/
def goMin (x y : Int) : Int := if x < y then x else y

/-- Go helper max over int. -/
def goMax (x y : Int) : Int := if x > y then x else y

/-- The check at the top of Device.SetButton: the call returns the
invalid-key-index error exactly when min(max(btnIndex, 0), ButtonCount())
differs from btnIndex. -/
def setButtonIndexRejected (btnIndex buttonCount : Int) : Bool :=
  decide (goMin (goMax btnIndex 0) buttonCount ≠ btnIndex)

/-- C2: the SetButton bounds check accepts btnIndex = ButtonCount (15 on the
MK.2) and proceeds with the image transfer, although valid buttons are
indexed 0 .. ButtonCount - 1; the check rejects exactly the indices outside
[0, ButtonCount], not those outside [0, ButtonCount). -/
theorem setButton_accepts_index_eq_buttonCount :
    setButtonIndexRejected (streamDeckMk2Type.ButtonCount : Int)
        (streamDeckMk2Type.ButtonCount : Int) = false ∧
    streamDeckMk2Type.ButtonCount = 15 ∧
    (∀ (i : Int) (n : Nat),
      setButtonIndexRejected i n = true ↔ (i < 0 ∨ (n : Int) < i)) := by
  refine ⟨by decide, by decide, ?_⟩
  intro i n
  simp only [setButtonIndexRejected, goMin, goMax, decide_eq_true_eq]
  split_ifs <;> omega

/-!
Descriptor walker: the single-file Device function of the hid package.  It
peeks a length byte, reads that many bytes as one record (failing when fewer
bytes remain or the length is below 2), skips records whose type is not in
the current filter, and builds at most one USB candidate.  The bus and
device numbers recovered from the file path are parameters here.  A cast
(binary.Read into a fixed-size struct) fails exactly when the record is
shorter than the struct, which is 18 bytes for a device descriptor, 9 for an
interface descriptor and 7 for an endpoint descriptor.
-/

structure WDeviceInfo where
  VendorID : Nat
  ProductID : Nat
  Revision : Nat
  SubClass : Nat
  Protocol : Nat
  Interface : Nat
  Bus : Nat
  Device : Nat
deriving DecidableEq

/-- The mutable fields of the hid.USB value the walker fills in. -/
structure USBCand where
  info : WDeviceInfo
  endpointIn : Nat
  endpointOut : Nat
  inputPacketSize : Nat
  outputPacketSize : Nat
deriving DecidableEq

/-- Walker state: the filter map (one expected flag per descriptor type),
the captured device descriptor fields, the path-derived bus and device
numbers, and the candidate under construction. -/
structure WalkState where
  expDevice : Bool
  expConfig : Bool
  expInterface : Bool
  expEndpoint : Bool
  expReport : Bool
  descVendor : Nat
  descProduct : Nat
  descRevision : Nat
  bus : Nat
  dev : Nat
  device : Option USBCand
deriving DecidableEq

/-- Little-endian u16 read at offset i of a record. -/
def u16le (b : List Nat) (i : Nat) : Nat :=
  b.getD i 0 + 256 * b.getD (i + 1) 0

/-- The candidate built when a HID-class interface record is processed. -/
def mkCandidate (st : WalkState) (b : List Nat) : USBCand :=
  { info :=
      { VendorID := st.descVendor, ProductID := st.descProduct,
        Revision := st.descRevision, SubClass := b.getD 6 0,
        Protocol := b.getD 7 0, Interface := b.getD 2 0,
        Bus := st.bus, Device := st.dev },
    endpointIn := 0, endpointOut := 0,
    inputPacketSize := 0, outputPacketSize := 0 }

/-- USBDescType constants from the hid package. -/
def USBDescTypeDevice : Nat := 1
def USBDescTypeConfig : Nat := 2
def USBDescTypeInterface : Nat := 4
def USBDescTypeEndpoint : Nat := 5
def USBDescTypeReport : Nat := 33
def USBHidClass : Nat := 3

/-- Whether the filter currently expects the record's descriptor type. -/
def expectedType (st : WalkState) (t : Nat) : Bool :=
  (t == USBDescTypeDevice && st.expDevice)
    || (t == USBDescTypeConfig && st.expConfig)
    || (t == USBDescTypeInterface && st.expInterface)
    || (t == USBDescTypeEndpoint && st.expEndpoint)
    || (t == USBDescTypeReport && st.expReport)

/-- One iteration of the walker switch on a full record b (b includes the
length and type bytes).  Errors model failing binary.Read casts. -/
def processRecord (st : WalkState) (b : List Nat) : Except Unit WalkState :=
  let t := b.getD 1 0
  if !expectedType st t then .ok st
  else if t == USBDescTypeDevice then
    if b.length < 18 then .error ()
    else .ok { st with expDevice := false, expConfig := true, descVendor := u16le b 8,
                       descProduct := u16le b 10, descRevision := u16le b 12 }
  else if t == USBDescTypeConfig then
    .ok { st with expInterface := true, expReport := false, expEndpoint := false }
  else if t == USBDescTypeInterface then
    let st := { st with expEndpoint := true, expReport := true }
    if b.length < 9 then .error ()
    else if b.getD 5 0 == USBHidClass then .ok { st with device := some (mkCandidate st b) }
    else .ok st
  else if t == USBDescTypeEndpoint then
    match st.device with
    | none => .ok st
    | some d =>
      let d := if d.endpointIn ≠ 0 ∧ d.endpointOut ≠ 0 then
          { d with endpointIn := 0, endpointOut := 0 } else d
      if b.length < 7 then .error ()
      else if 0x80 < b.getD 2 0 ∧ d.endpointIn = 0 then
        .ok { st with device := some { d with endpointIn := b.getD 2 0,
                                              inputPacketSize := u16le b 4 } }
      else if b.getD 2 0 < 0x80 ∧ d.endpointOut = 0 then
        .ok { st with device := some { d with endpointOut := b.getD 2 0,
                                              outputPacketSize := u16le b 4 } }
      else .ok { st with device := some d }
  else .ok st

/-- The walker loop: while bytes remain, peek the length byte, fail with the
short-read error when the declared length exceeds the remaining bytes or is
below 2, otherwise process the record and continue after it; at end of
stream the current candidate (possibly none) is returned. -/
def walkerLoop (st : WalkState) (s : List Nat) : Except Unit (Option USBCand) :=
  match s with
  | [] => .ok st.device
  | len :: rest =>
    if (len :: rest).length < len ∨ len < 2 then .error ()
    else
      match processRecord st ((len :: rest).take len) with
      | .error _ => .error ()
      | .ok st2 => walkerLoop st2 ((len :: rest).drop len)
termination_by s.length
decreasing_by
  simp only [List.length_drop, List.length_cons]
  omega

/-- Initial walker state: only device descriptors are expected. -/
def initWalkState (bus dev : Nat) : WalkState :=
  { expDevice := true, expConfig := false, expInterface := false,
    expEndpoint := false, expReport := false,
    descVendor := 0, descProduct := 0, descRevision := 0,
    bus := bus, dev := dev, device := none }

/-- The single-file walker (hid.Device) on the content of one descriptor
file, with bus and dev recovered from the path. -/
def walkerDevice (bus dev : Nat) (s : List Nat) : Except Unit (Option USBCand) :=
  walkerLoop (initWalkState bus dev) s

theorem walkerLoop_nil (st : WalkState) : walkerLoop st [] = .ok st.device := by
  rw [walkerLoop]

theorem walkerLoop_cons_ok (st st2 : WalkState) (len : Nat) (rest : List Nat)
    (hcond : ¬((len :: rest).length < len ∨ len < 2))
    (heq : processRecord st ((len :: rest).take len) = .ok st2) :
    walkerLoop st (len :: rest) = walkerLoop st2 ((len :: rest).drop len) := by
  rw [walkerLoop, if_neg hcond, heq]

/-- C4: at any state, a record whose declared length is below 2 or exceeds
the remaining bytes makes the walker fail with the short-read error, and no
partially-built device is returned. -/
theorem walker_short_read (st : WalkState) (len : Nat) (rest : List Nat)
    (h : len < 2 ∨ rest.length + 1 < len) :
    walkerLoop st (len :: rest) = .error () := by
  rw [walkerLoop]
  rw [if_pos (by simp only [List.length_cons]; omega)]

theorem walker_short_read_witness :
    ((5 : Nat) < 2 ∨ ([1, 0] : List Nat).length + 1 < 5) ∧
    walkerLoop (initWalkState 0 0) [5, 1, 0] = .error () :=
  ⟨by norm_num, walker_short_read (initWalkState 0 0) 5 [1, 0] (by norm_num)⟩

/-- Whether the walker in state st processes record b as a HID-class
interface, which is the one case that assigns a new candidate. -/
def isHidInterfaceFor (st : WalkState) (b : List Nat) : Bool :=
  st.expInterface && (b.getD 1 0 == USBDescTypeInterface)
    && !(b.length < 9) && (b.getD 5 0 == USBHidClass)

/-- The HID interface records the walker processes along a stream, in
order (same recursion and filter discipline as walkerLoop). -/
def hidTrace (st : WalkState) (s : List Nat) : List (List Nat) :=
  match s with
  | [] => []
  | len :: rest =>
    if (len :: rest).length < len ∨ len < 2 then []
    else
      match processRecord st ((len :: rest).take len) with
      | .error _ => []
      | .ok st2 =>
        (if isHidInterfaceFor st ((len :: rest).take len)
          then [(len :: rest).take len] else [])
          ++ hidTrace st2 ((len :: rest).drop len)
termination_by s.length
decreasing_by
  simp only [List.length_drop, List.length_cons]
  omega

/-- The candidate fields that come from an interface record: subclass,
protocol and interface number. -/
def candFromInterface (c : USBCand) (b : List Nat) : Prop :=
  c.info.SubClass = b.getD 6 0 ∧ c.info.Protocol = b.getD 7 0 ∧
    c.info.Interface = b.getD 2 0

theorem hidTrace_nil (st : WalkState) : hidTrace st [] = [] := by
  rw [hidTrace]

theorem hidTrace_cons_ok (st st2 : WalkState) (len : Nat) (rest : List Nat)
    (hcond : ¬((len :: rest).length < len ∨ len < 2))
    (heq : processRecord st ((len :: rest).take len) = .ok st2) :
    hidTrace st (len :: rest)
      = (if isHidInterfaceFor st ((len :: rest).take len)
          then [(len :: rest).take len] else [])
        ++ hidTrace st2 ((len :: rest).drop len) := by
  rw [hidTrace, if_neg hcond, heq]

/-- Device record for the C3 counterexample stream (vendor 0x0fd9, product
0x6d, revision 0x0100). -/
def c3DevRec : List Nat := [18, 1, 0, 2, 0, 0, 0, 8, 0xd9, 0x0f, 0x6d, 0, 0, 1, 0, 0, 0, 1]

def c3ConfRec : List Nat := [2, 2]

/-- First HID interface of the counterexample: number 0, subclass 1,
protocol 1. -/
def c3Iface1 : List Nat := [9, 4, 0, 0, 1, 3, 1, 1, 0]

/-- Second HID interface of the counterexample: number 1, subclass 2,
protocol 2. -/
def c3Iface2 : List Nat := [9, 4, 1, 0, 1, 3, 2, 2, 0]

def c3Stream : List Nat := c3DevRec ++ c3ConfRec ++ c3Iface1 ++ c3Iface2

/-- The candidate the walker actually returns on the counterexample
stream: built from the second (last) HID interface. -/
def c3Cand : USBCand :=
  { info :=
      { VendorID := 0x0fd9, ProductID := 0x6d, Revision := 0x0100,
        SubClass := 2, Protocol := 2, Interface := 1, Bus := 3, Device := 5 },
    endpointIn := 0, endpointOut := 0, inputPacketSize := 0, outputPacketSize := 0 }

/-- Concrete run of the walker on the two-interface counterexample file. -/
theorem c3StreamEval :
    walkerLoop (initWalkState 3 5) c3Stream = .ok (some c3Cand) := by
  simp [c3Stream, c3DevRec, c3ConfRec, c3Iface1, c3Iface2,
    walkerLoop, processRecord, expectedType, initWalkState, u16le, mkCandidate,
    USBDescTypeDevice, USBDescTypeConfig, USBDescTypeInterface,
    USBDescTypeEndpoint, USBDescTypeReport, USBHidClass, c3Cand]

/-- The HID interfaces the walker processes on the counterexample file. -/
theorem c3TraceEval :
    hidTrace (initWalkState 3 5) c3Stream = [c3Iface1, c3Iface2] := by
  simp [c3Stream, c3DevRec, c3ConfRec, c3Iface1, c3Iface2, hidTrace,
    processRecord, expectedType, initWalkState, u16le, mkCandidate,
    isHidInterfaceFor, USBDescTypeDevice, USBDescTypeConfig,
    USBDescTypeInterface, USBDescTypeEndpoint, USBDescTypeReport, USBHidClass]

/-- C3 counterexample: on a file with two HID interfaces the single-file
walker returns the candidate built from the second interface, not the
first: scanning does not stop at the first match, and a later HID interface
replaces the earlier candidate. -/
theorem walker_not_first_match :
    walkerDevice 3 5 c3Stream = .ok (some c3Cand) ∧
    (hidTrace (initWalkState 3 5) c3Stream).headD [] = c3Iface1 ∧
    c3Cand.info.Interface = 1 ∧ c3Iface1.getD 2 0 = 0 ∧
    ¬ candFromInterface c3Cand c3Iface1 := by
  refine ⟨c3StreamEval, by rw [c3TraceEval]; rfl, by decide, by decide,
    by unfold candFromInterface; decide⟩

/-- Processing a HID interface record replaces the candidate with the one
built from that record, whatever candidate was there before. -/
theorem processRecord_hid (st st2 : WalkState) (b : List Nat)
    (h : processRecord st b = .ok st2) (hh : isHidInterfaceFor st b = true) :
    st2.device = some (mkCandidate st b) := by
  rw [isHidInterfaceFor] at hh
  simp only [Bool.and_eq_true] at hh
  obtain ⟨⟨⟨h1, h2⟩, h3⟩, h4⟩ := hh
  have h2eq : b.getD 1 0 = 4 := by simpa [USBDescTypeInterface] using h2
  have h4eq : b.getD 5 0 = 3 := by simpa [USBHidClass] using h4
  have h3p : ¬ (b.length < 9) := by simpa using h3
  simp only [List.getD_eq_getElem?_getD] at h2eq h4eq
  simp [processRecord, expectedType, USBDescTypeDevice, USBDescTypeConfig,
    USBDescTypeInterface, USBDescTypeEndpoint, USBDescTypeReport, USBHidClass,
    h1, h2eq, h3p, h4eq] at h
  subst h
  simp [mkCandidate]

/-- Processing any record that is not a HID interface leaves the candidate's
info fields unchanged (the candidate may gain endpoint data or stay absent,
but its identity is preserved). -/
theorem processRecord_info (st st2 : WalkState) (b : List Nat)
    (h : processRecord st b = .ok st2) (hh : isHidInterfaceFor st b = false) :
    st2.device.map (fun c => c.info) = st.device.map (fun c => c.info) := by
  cases hexp : expectedType st (b.getD 1 0) with
  | false =>
    simp only [List.getD_eq_getElem?_getD] at hexp
    simp [processRecord, hexp] at h
    subst h
    rfl
  | true =>
    simp only [List.getD_eq_getElem?_getD] at hexp
    by_cases h1t : b.getD 1 0 = 1
    all_goals simp only [List.getD_eq_getElem?_getD] at h1t
    · have hexpd : st.expDevice = true := by
        simpa [expectedType, h1t, USBDescTypeDevice, USBDescTypeConfig,
          USBDescTypeInterface, USBDescTypeEndpoint, USBDescTypeReport] using hexp
      by_cases hl : b.length < 18
      · simp [processRecord, expectedType, USBDescTypeDevice, USBDescTypeConfig,
          USBDescTypeInterface, USBDescTypeEndpoint, USBDescTypeReport,
          hexpd, h1t, hl] at h
      · simp [processRecord, expectedType, USBDescTypeDevice, USBDescTypeConfig,
          USBDescTypeInterface, USBDescTypeEndpoint, USBDescTypeReport,
          hexpd, h1t, hl] at h
        subst h
        rfl
    · by_cases h2t : b.getD 1 0 = 2
      all_goals simp only [List.getD_eq_getElem?_getD] at h2t
      · have hexpc : st.expConfig = true := by
          simpa [expectedType, h2t, USBDescTypeDevice, USBDescTypeConfig,
            USBDescTypeInterface, USBDescTypeEndpoint, USBDescTypeReport] using hexp
        simp [processRecord, expectedType, USBDescTypeDevice, USBDescTypeConfig,
          USBDescTypeInterface, USBDescTypeEndpoint, USBDescTypeReport,
          hexpc, h1t, h2t] at h
        subst h
        rfl
      · by_cases h3t : b.getD 1 0 = 4
        all_goals simp only [List.getD_eq_getElem?_getD] at h3t
        · have hexpi : st.expInterface = true := by
            simpa [expectedType, h3t, USBDescTypeDevice, USBDescTypeConfig,
              USBDescTypeInterface, USBDescTypeEndpoint, USBDescTypeReport] using hexp
          by_cases hl : b.length < 9
          · simp [processRecord, expectedType, USBDescTypeDevice, USBDescTypeConfig,
              USBDescTypeInterface, USBDescTypeEndpoint, USBDescTypeReport,
              hexpi, h1t, h2t, h3t, hl] at h
          · by_cases hc : b.getD 5 0 = 3
            all_goals simp only [List.getD_eq_getElem?_getD] at hc
            · exfalso
              rw [isHidInterfaceFor] at hh
              simp [USBDescTypeInterface, USBHidClass, hexpi, h3t, hl, hc] at hh
            · simp [processRecord, expectedType, USBDescTypeDevice, USBDescTypeConfig,
                USBDescTypeInterface, USBDescTypeEndpoint, USBDescTypeReport,
                USBHidClass, hexpi, h1t, h2t, h3t, hl, hc] at h
              subst h
              rfl
        · by_cases h5t : b.getD 1 0 = 5
          all_goals simp only [List.getD_eq_getElem?_getD] at h5t
          · have hexpe : st.expEndpoint = true := by
              simpa [expectedType, h5t, USBDescTypeDevice, USBDescTypeConfig,
                USBDescTypeInterface, USBDescTypeEndpoint, USBDescTypeReport] using hexp
            cases hd : st.device with
            | none =>
              simp [processRecord, expectedType, USBDescTypeDevice, USBDescTypeConfig,
                USBDescTypeInterface, USBDescTypeEndpoint, USBDescTypeReport,
                hexpe, h1t, h2t, h3t, h5t, hd] at h
              subst h
              simp [hd]
            | some d =>
              by_cases hl : b.length < 7
              · simp [processRecord, expectedType, USBDescTypeDevice, USBDescTypeConfig,
                  USBDescTypeInterface, USBDescTypeEndpoint, USBDescTypeReport,
                  hexpe, h1t, h2t, h3t, h5t, hd, hl] at h
              · by_cases hin : 0x80 < b.getD 2 0 ∧
                    (if d.endpointIn ≠ 0 ∧ d.endpointOut ≠ 0 then
                      { d with endpointIn := 0, endpointOut := 0 } else d).endpointIn = 0
                all_goals simp only [List.getD_eq_getElem?_getD] at hin
                · simp [processRecord, expectedType, USBDescTypeDevice,
                    USBDescTypeConfig, USBDescTypeInterface, USBDescTypeEndpoint,
                    USBDescTypeReport, hexpe, h1t, h2t, h3t, h5t, hd, hl, hin] at h
                  subst h
                  simp [hd]
                  split <;> rfl
                · by_cases hout : b.getD 2 0 < 0x80 ∧
                      (if d.endpointIn ≠ 0 ∧ d.endpointOut ≠ 0 then
                        { d with endpointIn := 0, endpointOut := 0 } else d).endpointOut = 0
                  all_goals simp only [List.getD_eq_getElem?_getD] at hout
                  · simp [processRecord, expectedType, USBDescTypeDevice,
                      USBDescTypeConfig, USBDescTypeInterface, USBDescTypeEndpoint,
                      USBDescTypeReport, hexpe, h1t, h2t, h3t, h5t, hd, hl,
                      hin, hout] at h
                    subst h
                    simp [hd]
                    split <;> rfl
                  · simp [processRecord, expectedType, USBDescTypeDevice,
                      USBDescTypeConfig, USBDescTypeInterface, USBDescTypeEndpoint,
                      USBDescTypeReport, hexpe, h1t, h2t, h3t, h5t, hd, hl,
                      hin, hout] at h
                    subst h
                    simp [hd]
                    split <;> rfl
          · simp [processRecord, expectedType, USBDescTypeDevice, USBDescTypeConfig,
              USBDescTypeInterface, USBDescTypeEndpoint, USBDescTypeReport,
              hexp, h1t, h2t, h3t, h5t] at h
            subst h
            rfl


/-- Along any successfully walked stream, the returned candidate's
interface identity comes from the last HID interface record processed; when
no HID interface was processed in the stream, the candidate (if any) predates
it with unchanged identity. -/
theorem walkerLoop_last_hid (st : WalkState) (s : List Nat) :
    ∀ c : USBCand, walkerLoop st s = .ok (some c) →
      (hidTrace st s = [] → ∃ c0, st.device = some c0 ∧ c0.info = c.info) ∧
      (hidTrace st s ≠ [] → candFromInterface c ((hidTrace st s).getLastD [])) := by
  induction st, s using walkerLoop.induct with
  | case1 st =>
    intro c h
    rw [walkerLoop_nil] at h
    rw [hidTrace_nil]
    have hdev : st.device = some c := by
      injection h
    exact ⟨fun _ => ⟨c, hdev, rfl⟩, fun hne => absurd rfl hne⟩
  | case2 st len rest hcond =>
    intro c h
    rw [walkerLoop, if_pos hcond] at h
    exact absurd h (by simp)
  | case3 st len rest hcond e heq =>
    intro c h
    rw [walkerLoop, if_neg hcond, heq] at h
    exact absurd h (by simp)
  | case4 st len rest hcond st2 heq ih =>
    intro c h
    rw [walkerLoop_cons_ok st st2 len rest hcond heq] at h
    obtain ⟨ih1, ih2⟩ := ih c h
    rw [hidTrace_cons_ok st st2 len rest hcond heq]
    by_cases hhid : isHidInterfaceFor st ((len :: rest).take len) = true
    · rw [if_pos hhid]
      have hdev := processRecord_hid st st2 _ heq hhid
      refine ⟨fun habs => absurd habs (by simp), fun _ => ?_⟩
      cases htr : hidTrace st2 ((len :: rest).drop len) with
      | nil =>
        obtain ⟨c0, hc0, hinfo⟩ := ih1 htr
        rw [hdev] at hc0
        have hmk : mkCandidate st ((len :: rest).take len) = c0 := by
          injection hc0
        subst hmk
        simp only [List.append_nil, List.getLastD_cons, List.getLastD_nil]
        refine ⟨?_, ?_, ?_⟩ <;> rw [← hinfo] <;> simp [mkCandidate]
      | cons x xs =>
        have hne : hidTrace st2 ((len :: rest).drop len) ≠ [] := by
          rw [htr]
          simp
        have hlast := ih2 hne
        rw [htr] at hlast
        simp only [List.singleton_append, List.getLastD_cons]
        simpa only [List.getLastD_cons] using hlast
    · rw [if_neg hhid]
      simp only [List.nil_append]
      have hfalse : isHidInterfaceFor st ((len :: rest).take len) = false :=
        Bool.eq_false_iff.mpr hhid
      have hinfo := processRecord_info st st2 _ heq hfalse
      constructor
      · intro htr
        obtain ⟨c0, hc0, hci⟩ := ih1 htr
        rw [hc0] at hinfo
        cases hsd : st.device with
        | none =>
          rw [hsd] at hinfo
          simp at hinfo
        | some c1 =>
          rw [hsd] at hinfo
          simp at hinfo
          exact ⟨c1, rfl, by rw [← hinfo]; exact hci⟩
      · exact ih2



/-- C3 (amended): the single-file walker surfaces at most one completed
device per file (it returns at most one candidate by construction), and an
end-of-stream with a still-open candidate emits that candidate; but scanning
does not stop at the first HID interface: each matching HID interface
replaces the current candidate, so the surfaced device is the candidate
built from the last matching HID interface processed in the file (when the
stream itself processed none, the candidate predates the stream with
unchanged identity). -/
theorem walker_at_most_one_last_match :
    (∀ st : WalkState, walkerLoop st [] = .ok st.device) ∧
    (∀ (st : WalkState) (s : List Nat) (c : USBCand),
      walkerLoop st s = .ok (some c) →
        (hidTrace st s = [] → ∃ c0, st.device = some c0 ∧ c0.info = c.info) ∧
        (hidTrace st s ≠ [] →
          candFromInterface c ((hidTrace st s).getLastD []))) :=
  ⟨walkerLoop_nil, fun st s c h => walkerLoop_last_hid st s c h⟩

theorem walker_at_most_one_last_match_witness :
    walkerLoop (initWalkState 3 5) c3Stream = .ok (some c3Cand) ∧
    (hidTrace (initWalkState 3 5) c3Stream ≠ [] →
      candFromInterface c3Cand ((hidTrace (initWalkState 3 5) c3Stream).getLastD [])) :=
  ⟨c3StreamEval,
   (walker_at_most_one_last_match.2 (initWalkState 3 5) c3Stream c3Cand c3StreamEval).2⟩



/-!
Controller state machine (StreamDeck wrapper): target brightness and the
sleeping flag, SetBrightness, SetSleeping and the press-dispatch step.  The
underlying device transfer is modelled by a boolean input deviceOk; the
atomic loads and stores collapse to plain record fields in this sequential
model.
-/

def BrightnessMin : Nat := 0

def BrightnessFull : Nat := 100

structure SDState where
  brightness : Nat
  isSleeping : Bool
deriving DecidableEq

/-- Result of one controller operation: whether it returned without error,
the state afterwards, and the brightness value sent to the device when a
transfer was issued. -/
structure OpResult where
  ok : Bool
  state : SDState
  applied : Option Nat
deriving DecidableEq

/-- StreamDeck.SetBrightness: clamp into [BrightnessMin, BrightnessFull];
when not sleeping, send the clamped value to the device and return the
error on failure (before the store); always store the clamped value as the
new target on the success path. -/
def streamDeckSetBrightness (s : SDState) (value : Nat) (deviceOk : Bool) : OpResult :=
  let b1 := if value < BrightnessMin then BrightnessMin else value
  let b := if b1 > BrightnessFull then BrightnessFull else b1
  if !s.isSleeping then
    if deviceOk then
      { ok := true, state := { s with brightness := b }, applied := some b }
    else { ok := false, state := s, applied := some b }
  else { ok := true, state := { s with brightness := b }, applied := none }

/-- StreamDeck.SetSleeping: send the brightness transfer first (minimum when
going to sleep, the persisted target when waking), and store the sleeping
flag only after the transfer succeeds; the target brightness is never
changed. -/
def streamDeckSetSleeping (s : SDState) (sleeping : Bool) (deviceOk : Bool) : OpResult :=
  let newBrightness := if sleeping then BrightnessMin else s.brightness
  if deviceOk then
    { ok := true, state := { s with isSleeping := sleeping },
      applied := some newBrightness }
  else { ok := false, state := s, applied := some newBrightness }

/-- One iteration of buttonCallbackListener on a consumed press index: when
sleeping, the press only wakes the device (SetSleeping false, error
discarded) and is not forwarded; otherwise the handler, when registered, is
invoked with the index (the second component). -/
def dispatchStep (s : SDState) (handlerSet : Bool) (index : Nat) (deviceOk : Bool) :
    SDState × Option Nat :=
  if s.isSleeping then
    ((streamDeckSetSleeping s false deviceOk).state, none)
  else if handlerSet then (s, some index)
  else (s, none)

/-- C5: SetBrightness clamps its argument to [0, 100] (a value above 100
behaves as 100), applies the clamped value to the device only when not
sleeping, and persists the clamped value as the new target brightness
regardless of the sleep state. -/
theorem setBrightness_clamps_and_persists (s : SDState) (value : Nat) (deviceOk : Bool) :
    (100 < value →
      streamDeckSetBrightness s value deviceOk
        = streamDeckSetBrightness s 100 deviceOk) ∧
    (s.isSleeping = true →
      streamDeckSetBrightness s value deviceOk
        = { ok := true,
            state := { s with brightness := if 100 < value then 100 else value },
            applied := none }) ∧
    (s.isSleeping = false → deviceOk = true →
      streamDeckSetBrightness s value deviceOk
        = { ok := true,
            state := { s with brightness := if 100 < value then 100 else value },
            applied := some (if 100 < value then 100 else value) }) := by
  refine ⟨fun hv => ?_, fun hs => ?_, fun hs hok => ?_⟩ <;>
    simp only [streamDeckSetBrightness, BrightnessMin, BrightnessFull] <;>
    simp_all

theorem setBrightness_clamps_and_persists_witness :
    100 < 250 ∧
    ((⟨40, false⟩ : SDState).isSleeping = false → true = true →
      streamDeckSetBrightness ⟨40, false⟩ 250 true
        = { ok := true,
            state := { (⟨40, false⟩ : SDState) with
                        brightness := if 100 < 250 then 100 else 250 },
            applied := some (if 100 < 250 then 100 else 250) }) :=
  ⟨by norm_num, (setBrightness_clamps_and_persists ⟨40, false⟩ 250 true).2.2⟩

/-- C6: SetSleeping issues the brightness transfer first (the minimum when
going to sleep, the persisted target when waking) and flips the sleeping
flag only after the transfer succeeds; when the transfer fails, both the
sleeping flag and the persisted target brightness are unchanged. -/
theorem setSleeping_transfer_then_flag (s : SDState) (sleeping deviceOk : Bool) :
    (streamDeckSetSleeping s sleeping deviceOk).applied
        = some (if sleeping then BrightnessMin else s.brightness) ∧
    (deviceOk = true →
      streamDeckSetSleeping s sleeping deviceOk
        = { ok := true, state := { s with isSleeping := sleeping },
            applied := some (if sleeping then BrightnessMin else s.brightness) }) ∧
    (deviceOk = false →
      streamDeckSetSleeping s sleeping deviceOk
        = { ok := false, state := s,
            applied := some (if sleeping then BrightnessMin else s.brightness) }) := by
  refine ⟨?_, fun hok => ?_, fun hok => ?_⟩
  · cases deviceOk <;> simp [streamDeckSetSleeping]
  · subst hok
    simp [streamDeckSetSleeping]
  · subst hok
    simp [streamDeckSetSleeping]

theorem setSleeping_transfer_then_flag_witness :
    (true = true →
      streamDeckSetSleeping ⟨70, false⟩ true true
        = { ok := true, state := { (⟨70, false⟩ : SDState) with isSleeping := true },
            applied := some (if true then BrightnessMin
              else (⟨70, false⟩ : SDState).brightness) }) :=
  (setSleeping_transfer_then_flag ⟨70, false⟩ true true).2.1

/-- C7: a press consumed while sleeping is never forwarded to the handler
(it only triggers the wake transition), and the next press consumed while
awake with a registered handler reaches the handler with the pressed
button's index. -/
theorem dispatch_sleeping_press_not_forwarded (s : SDState) (handlerSet : Bool)
    (i1 i2 : Nat) (deviceOk : Bool) (hs : s.isSleeping = true) :
    (dispatchStep s handlerSet i1 deviceOk).2 = none ∧
    (dispatchStep s handlerSet i1 true).1.isSleeping = false ∧
    (dispatchStep (dispatchStep s handlerSet i1 true).1 true i2 true).2 = some i2 := by
  simp [dispatchStep, streamDeckSetSleeping, hs]

theorem dispatch_sleeping_press_not_forwarded_witness :
    (⟨100, true⟩ : SDState).isSleeping = true ∧
    ((dispatchStep ⟨100, true⟩ true 3 true).2 = none ∧
     (dispatchStep ⟨100, true⟩ true 3 true).1.isSleeping = false ∧
     (dispatchStep (dispatchStep ⟨100, true⟩ true 3 true).1 true 7 true).2 = some 7) :=
  ⟨rfl, dispatch_sleeping_press_not_forwarded ⟨100, true⟩ true 3 7 true rfl⟩

/-!
Transport close (USB.Close): idempotence.
-/

inductive UsbAction
  | release
  | fileClose
deriving DecidableEq

/-- USB.Close: returns immediately when the handle is already unopened;
otherwise runs the release sequence, closes the file regardless of the
release outcome, marks the handle unopened, and reports the first error.
The result is the new opened flag, whether an error was returned, and the
operations performed. -/
def usbClose (opened releaseOk fileCloseOk : Bool) : Bool × Bool × List UsbAction :=
  if !opened then (false, false, [])
  else if !releaseOk then (false, true, [.release, .fileClose])
  else if !fileCloseOk then (false, true, [.release, .fileClose])
  else (false, false, [.release, .fileClose])

/-- C8: after any first Close on an opened handle the handle is marked
unopened, and a second Close is a no-op: it performs no release and no file
operation and returns no error, whatever the outcomes of the first call
were, so closing twice cannot crash. -/
theorem usbClose_idempotent (r1 c1 r2 c2 : Bool) :
    (usbClose true r1 c1).1 = false ∧
    usbClose (usbClose true r1 c1).1 r2 c2 = (false, false, []) := by
  cases r1 <;> cases c1 <;> cases r2 <;> cases c2 <;> decide


end Streamdeck
